import Mathlib

/-
Verification of the USDFG escrow wagering program (programs/usdfg_smart_contract/src/lib.rs).

Shallow embedding conventions:
- Public keys (identities) are natural numbers; each identity owns exactly one
  token account for the escrowed mint, so `bal : Pubkey → Nat` gives every
  token account balance, and `vault : Nat` is the balance of the per-challenge
  escrow token account.
- `i64` timestamps are `Int`; `u64` token amounts are `Nat` (the program bounds
  every reachable amount by 2000, far below 2^64, so no modular wrap occurs).
- Each instruction handler is translated check-for-check and write-for-write in
  source order.  A handler yields a `StepResult`: `ok post` on success,
  `err e working` when a `require!` or the token program fails (`working` is
  the in-memory account state at the abort point, which the runtime discards),
  and `panic working` when the Rust code would panic (the `Option::unwrap`
  calls).  `commit` encodes the runtime's all-or-nothing transaction
  semantics: writes persist only on `ok`.
- The invoked SPL token transfer is external library code; its semantics is the
  standard one: the transfer succeeds if and only if the source account holds
  at least the transferred amount.
-/

namespace Usdfg

/-- Identities (Solana public keys) are modelled as natural numbers. -/
abbrev Pubkey := Nat

/-- Challenge status, from the source enum ChallengeStatus. -/
inductive ChallengeStatus where
  | Open
  | InProgress
  | Completed
  | Cancelled
  | Disputed
deriving DecidableEq, Repr

/-- Program error codes, from the source enum ChallengeError. -/
inductive ChallengeError where
  | NotOpen
  | NotInProgress
  | SelfChallenge
  | InvalidWinner
  | InsufficientFunds
  | InvalidEscrowWallet
  | ChallengeExpired
  | ChallengeNotExpired
  | EntryFeeTooLow
  | EntryFeeTooHigh
  | InvalidTokenMint
  | Unauthorized
  | AdminInactive
  | InvalidAdmin
  | ReentrancyDetected
  | AlreadyAccepted
deriving DecidableEq, Repr

/-- An instruction fails either inside the program with a `ChallengeError` or
inside the invoked SPL token program: the transfer of a stake can fail for an
insufficient source balance, and a transfer out of the vault fails with a
missing-signature (privilege escalation) error when the source account's
authority has not signed. -/
inductive TxError where
  | cerr : ChallengeError → TxError
  | tokenInsufficientFunds : TxError
  | tokenMissingSignature : TxError
deriving DecidableEq, Repr

/-- The per-wager persisted record, from the source struct Challenge. -/
structure Challenge where
  creator : Pubkey
  challenger : Option Pubkey
  entry_fee : Nat
  status : ChallengeStatus
  dispute_timer : Int
  winner : Option Pubkey
  created_at : Int
  last_updated : Int
  processing : Bool
deriving DecidableEq, Repr

/-- The singleton admin registry, from the source struct AdminState. -/
structure AdminState where
  admin : Pubkey
  is_active : Bool
  created_at : Int
  last_updated : Int
deriving DecidableEq, Repr

/-- Persisted state relevant to one challenge: its record, the balance of its
escrow vault token account, and the token balance of every identity. -/
structure St where
  challenge : Challenge
  vault : Nat
  bal : Pubkey → Nat

/-- Outcome of one instruction on a challenge: success with the post-state,
abort with an error (carrying the discarded working state), or a Rust panic. -/
inductive StepResult (σ : Type) where
  | ok : σ → StepResult σ
  | err : TxError → σ → StepResult σ
  | panic : σ → StepResult σ

/-- Transaction semantics of the runtime: account writes persist only when the
instruction returns Ok; on an error or a panic the whole transaction is
discarded and the pre-state is kept. -/
def commit (pre : St) : StepResult St → St
  | .ok s => s
  | .err _ _ => pre
  | .panic _ => pre

def StepResult.isOk {σ : Type} : StepResult σ → Bool
  | .ok _ => true
  | _ => false

def StepResult.isErr {σ : Type} : StepResult σ → Bool
  | .err _ _ => true
  | _ => false

def StepResult.isPanic {σ : Type} : StepResult σ → Bool
  | .panic _ => true
  | _ => false

/-- Error component of a result, when the result is an abort. -/
def StepResult.errOf {σ : Type} : StepResult σ → Option TxError
  | .err e _ => some e
  | _ => none

/-- SPL token transfer from the token account of `payer` into the vault:
succeeds iff the payer holds at least `amount`. -/
def vaultDeposit (s : St) (payer : Pubkey) (amount : Nat) : Option St :=
  if amount ≤ s.bal payer then
    some { s with vault := s.vault + amount,
                  bal := fun p => if p = payer then s.bal p - amount else s.bal p }
  else none

/-- Seed material of a program-derived address.  Derivation is modelled as the
identity on seed lists: find_program_address is injective for a fixed program,
so a PDA is identified with the seeds that derive it.  The byte string
ESCROW_WALLET_SEED is tag 0; account keys contribute their numeric identity. -/
abbrev SeedBytes := List Nat

/-- Tag standing for the constant seed bytes b"escrow_wallet" of the source. -/
def ESCROW_WALLET_SEED : Nat := 0

/-- Address of the authority account escrow_wallet: every outbound-transfer
context constrains it to the PDA of seeds [ESCROW_WALLET_SEED] (lib.rs
lines 518-522, 544-548, 572-576).  Being off-curve, it can never sign a
transaction itself; only invoke_signed with exactly these seeds could. -/
def escrowWalletAddr : SeedBytes := [ESCROW_WALLET_SEED]

/-- Address of the per-challenge escrow token account, the PDA of seeds
[ESCROW_WALLET_SEED, challenge.key, mint.key] (the bump completing the
derivation of exactly this address). -/
def escrowTokenAccountAddr (challengeKey mintKey : Pubkey) : SeedBytes :=
  [ESCROW_WALLET_SEED, challengeKey, mintKey]

/-- SPL token transfer from the vault into the token account of `recip`.  The
token program requires the source account's authority to sign; that authority
is the off-curve PDA escrow_wallet (token::authority = escrow_wallet), so the
only possible signature is one the calling program produces through
invoke_signed.  `signedFor` is the address the calling program signed for:
none when the CPI is built with CpiContext::new (no signer seeds), otherwise
the PDA derived from the supplied seeds.  The transfer succeeds iff that
signature is for the authority's own address and the vault holds `amount`. -/
def vaultPayout (signedFor : Option SeedBytes) (s : St) (recip : Pubkey)
    (amount : Nat) : Except TxError St :=
  if signedFor = some escrowWalletAddr then
    if amount ≤ s.vault then
      .ok { s with vault := s.vault - amount,
                   bal := fun p => if p = recip then s.bal p + amount else s.bal p }
    else .error .tokenInsufficientFunds
  else .error .tokenMissingSignature

/-- Evaluation of the Rust expression `x == c.creator || x == c.challenger.unwrap()`
with short-circuiting: `none` when the unwrap panics (challenger absent and the
first disjunct false), otherwise the boolean value. -/
def eqCreatorOrChallenger (x creator : Pubkey) (challenger : Option Pubkey) : Option Bool :=
  if x = creator then some true
  else
    match challenger with
    | none => none
    | some ch => some (decide (x = ch))

/-- Handler create_challenge (lib.rs lines 116-164): fee bounds, transfer the
entry fee from the creator into the fresh vault, initialize the record.  The
challenge account and its vault are freshly created, so no pre-state exists;
the function takes only the ambient clock and balances. -/
def create_challenge (now : Int) (creator : Pubkey) (usdfg_amount : Nat)
    (bal : Pubkey → Nat) : Except TxError St :=
  if usdfg_amount < 1 then .error (.cerr .EntryFeeTooLow)
  else if 1000 < usdfg_amount then .error (.cerr .EntryFeeTooHigh)
  else if bal creator < usdfg_amount then .error .tokenInsufficientFunds
  else .ok
    { challenge :=
        { creator := creator
          challenger := none
          entry_fee := usdfg_amount
          status := .Open
          dispute_timer := now + 900
          winner := none
          created_at := now
          last_updated := now
          processing := false }
      vault := usdfg_amount
      bal := fun p => if p = creator then bal creator - usdfg_amount else bal p }

/-- Handler accept_challenge (lib.rs lines 166-216): admin active, status Open,
no self-challenge, challenger funded, not expired; then record the challenger,
set InProgress, and transfer the entry fee into the vault. -/
def accept_challenge (now : Int) (adminActive : Bool) (challenger : Pubkey)
    (s : St) : StepResult St :=
  if adminActive = false then .err (.cerr .AdminInactive) s
  else if s.challenge.status ≠ .Open then .err (.cerr .NotOpen) s
  else if s.challenge.creator = challenger then .err (.cerr .SelfChallenge) s
  else if s.bal challenger < s.challenge.entry_fee then .err (.cerr .InsufficientFunds) s
  else if ¬ now < s.challenge.dispute_timer then .err (.cerr .ChallengeExpired) s
  else
    let s1 : St :=
      { s with challenge :=
          { s.challenge with
              challenger := some challenger
              status := .InProgress
              last_updated := now } }
    match vaultDeposit s1 challenger s1.challenge.entry_fee with
    | none => .err .tokenInsufficientFunds s1
    | some s2 => .ok s2

/-- Handler resolve_challenge (lib.rs lines 218-271): reentrancy guard, admin
active, status InProgress, winner is creator or the unwrapped challenger, not
expired; then mark Completed, record the winner, and attempt to pay the whole
pot (entry_fee * 2) from the vault to the winner.  The payout CPI at lines
243-261 signs with seeds [ESCROW_WALLET_SEED, challenge.key, mint.key, bump of
escrow_token_account], which derive the escrow token account's own address,
not the authority escrow_wallet's address [ESCROW_WALLET_SEED]; the transfer
is therefore signed for the wrong address and the token program rejects it.
`challengeKey` and `mintKey` are the addresses of the challenge and mint
accounts named in the instruction. -/
def resolve_challenge (now : Int) (adminActive : Bool) (winner : Pubkey)
    (challengeKey mintKey : Pubkey) (s : St) : StepResult St :=
  if s.challenge.processing then .err (.cerr .ReentrancyDetected) s
  else
    let s0 : St := { s with challenge := { s.challenge with processing := true } }
    if adminActive = false then .err (.cerr .AdminInactive) s0
    else if s0.challenge.status ≠ .InProgress then .err (.cerr .NotInProgress) s0
    else
      match eqCreatorOrChallenger winner s0.challenge.creator s0.challenge.challenger with
      | none => .panic s0
      | some false => .err (.cerr .InvalidWinner) s0
      | some true =>
        if ¬ now < s0.challenge.dispute_timer then .err (.cerr .ChallengeExpired) s0
        else
          let s1 : St :=
            { s0 with challenge :=
                { s0.challenge with
                    status := .Completed
                    winner := some winner
                    last_updated := now } }
          match vaultPayout (some (escrowTokenAccountAddr challengeKey mintKey))
              s1 winner (s1.challenge.entry_fee * 2) with
          | .error e => .err e s1
          | .ok s2 => .ok { s2 with challenge := { s2.challenge with processing := false } }

/-- Handler cancel_challenge (lib.rs lines 273-316): reentrancy guard, admin
active, status Open, caller is the creator, not expired; then mark Cancelled
and attempt to refund the entry fee from the vault to the creator.  The
refund CPI at lines 297-306 is built with CpiContext::new, with no signer
seeds, while the authority escrow_wallet is an off-curve PDA, so the token
program rejects the unsigned transfer. -/
def cancel_challenge (now : Int) (adminActive : Bool) (caller : Pubkey)
    (s : St) : StepResult St :=
  if s.challenge.processing then .err (.cerr .ReentrancyDetected) s
  else
    let s0 : St := { s with challenge := { s.challenge with processing := true } }
    if adminActive = false then .err (.cerr .AdminInactive) s0
    else if s0.challenge.status ≠ .Open then .err (.cerr .NotOpen) s0
    else if caller ≠ s0.challenge.creator then .err (.cerr .Unauthorized) s0
    else if ¬ now < s0.challenge.dispute_timer then .err (.cerr .ChallengeExpired) s0
    else
      let s1 : St :=
        { s0 with challenge :=
            { s0.challenge with status := .Cancelled, last_updated := now } }
      match vaultPayout none s1 s1.challenge.creator s1.challenge.entry_fee with
      | .error e => .err e s1
      | .ok s2 => .ok { s2 with challenge := { s2.challenge with processing := false } }

/-- Handler claim_refund (lib.rs lines 318-354): reentrancy guard, caller is
the creator, status Open, already expired, no challenger; then mark Cancelled
and attempt to refund the entry fee from the vault to the creator.  Unlike
the other transitions it performs no admin_state.is_active check.  Its refund
CPI at lines 335-344 is built with CpiContext::new, with no signer seeds, so
as in cancel_challenge the token program rejects the unsigned transfer. -/
def claim_refund (now : Int) (caller : Pubkey) (s : St) : StepResult St :=
  if s.challenge.processing then .err (.cerr .ReentrancyDetected) s
  else
    let s0 : St := { s with challenge := { s.challenge with processing := true } }
    if caller ≠ s0.challenge.creator then .err (.cerr .Unauthorized) s0
    else if s0.challenge.status ≠ .Open then .err (.cerr .NotOpen) s0
    else if now < s0.challenge.dispute_timer then .err (.cerr .ChallengeNotExpired) s0
    else if s0.challenge.challenger.isSome then .err (.cerr .AlreadyAccepted) s0
    else
      let s1 : St :=
        { s0 with challenge :=
            { s0.challenge with status := .Cancelled, last_updated := now } }
      match vaultPayout none s1 s1.challenge.creator s1.challenge.entry_fee with
      | .error e => .err e s1
      | .ok s2 => .ok { s2 with challenge := { s2.challenge with processing := false } }

/-- Handler dispute_challenge (lib.rs lines 356-391): admin active, status
InProgress, already expired, disputer is creator or the unwrapped challenger;
then mark Disputed.  No token movement. -/
def dispute_challenge (now : Int) (adminActive : Bool) (disputer : Pubkey)
    (s : St) : StepResult St :=
  if adminActive = false then .err (.cerr .AdminInactive) s
  else if s.challenge.status ≠ .InProgress then .err (.cerr .NotInProgress) s
  else if now < s.challenge.dispute_timer then .err (.cerr .ChallengeNotExpired) s
  else
    match eqCreatorOrChallenger disputer s.challenge.creator s.challenge.challenger with
    | none => .panic s
    | some false => .err (.cerr .Unauthorized) s
    | some true =>
      .ok { s with challenge :=
              { s.challenge with status := .Disputed, last_updated := now } }

/-- Handler revoke_admin (lib.rs lines 78-102): caller must be the recorded
admin and the registry active; then is_active is set false forever. -/
def revoke_admin (now : Int) (caller : Pubkey) (a : AdminState) :
    Except ChallengeError AdminState :=
  if a.admin ≠ caller then .error .Unauthorized
  else if a.is_active = false then .error .AdminInactive
  else .ok { a with is_active := false, last_updated := now }

/-- Tags naming the five transitions that act on an existing challenge. -/
inductive StepTag where
  | acceptT
  | resolveT
  | cancelT
  | refundT
  | disputeT
deriving DecidableEq, Repr

/-- Uniform step relation over an existing challenge: `actor` is the signing
caller (challenger, creator, or disputer), `w` is the winner argument of
resolve_challenge, `ck` and `mk` the challenge and mint account addresses
resolve_challenge derives its signer seeds from (all unused by the other
transitions). -/
def runStep (t : StepTag) (now : Int) (adminActive : Bool) (actor : Pubkey)
    (w ck mk : Pubkey) (s : St) : StepResult St :=
  match t with
  | .acceptT => accept_challenge now adminActive actor s
  | .resolveT => resolve_challenge now adminActive w ck mk s
  | .cancelT => cancel_challenge now adminActive actor s
  | .refundT => claim_refund now actor s
  | .disputeT => dispute_challenge now adminActive actor s

/-- Challenge states reachable by the program: a fresh creation followed by any
sequence of committed successful transitions. -/
inductive Reachable : St → Prop where
  | created : ∀ now creator fee bal s,
      create_challenge now creator fee bal = .ok s → Reachable s
  | step : ∀ t now aa actor w ck mk s s', Reachable s →
      runStep t now aa actor w ck mk s = .ok s' → Reachable s'

/-- The escrow balance correspondence of the specification: the vault holds the
entry fee while Open, twice it while InProgress or Disputed, and nothing once
Completed or Cancelled. -/
def vaultInv (s : St) : Prop :=
  match s.challenge.status with
  | .Open => s.vault = s.challenge.entry_fee
  | .InProgress => s.vault = s.challenge.entry_fee * 2
  | .Disputed => s.vault = s.challenge.entry_fee * 2
  | .Completed => s.vault = 0
  | .Cancelled => s.vault = 0

/-- Structural well-formedness that every reachable state enjoys: the escrow
correspondence, a present challenger whenever the status is InProgress or
Disputed, and a clear reentrancy flag. -/
def goodSt (s : St) : Prop :=
  vaultInv s ∧
  ((s.challenge.status = .InProgress ∨ s.challenge.status = .Disputed) →
      s.challenge.challenger.isSome = true) ∧
  s.challenge.processing = false

/-- A vault payout whose signature is not for the authority's own address is
rejected by the token program, whatever the balances. -/
theorem vaultPayout_not_signed {sf : Option SeedBytes} (s : St) (r : Pubkey)
    (a : Nat) (h : sf ≠ some escrowWalletAddr) :
    vaultPayout sf s r a = .error .tokenMissingSignature := by
  unfold vaultPayout
  rw [if_neg h]

/-- The seeds resolve_challenge signs with derive the escrow token account's
address, which is never the authority escrow_wallet's address. -/
theorem escrowTokenAccountAddr_ne (ck mk : Pubkey) :
    (some (escrowTokenAccountAddr ck mk) : Option SeedBytes)
      ≠ some escrowWalletAddr := by
  simp [escrowTokenAccountAddr, escrowWalletAddr]

/-- Inversion of a successful vault deposit. -/
theorem vaultDeposit_some_inv {s : St} {q : Pubkey} {a : Nat} {s' : St}
    (h : vaultDeposit s q a = some s') :
    a ≤ s.bal q ∧
    s' = { s with vault := s.vault + a
                  bal := fun p => if p = q then s.bal p - a else s.bal p } := by
  unfold vaultDeposit at h
  split at h
  · simp_all
  · simp at h

/-- A true creator-or-challenger test means the tested key is the creator or
the recorded challenger. -/
theorem eqCoC_true_inv {x c : Pubkey} {cho : Option Pubkey}
    (h : eqCreatorOrChallenger x c cho = some true) :
    x = c ∨ cho = some x := by
  unfold eqCreatorOrChallenger at h
  split at h
  · left; assumption
  · split at h
    · simp at h
    · right
      rename_i ch
      simp only [Option.some.injEq, decide_eq_true_eq] at h
      simp [h]

/-- Inversion of a successful create_challenge: both fee bounds and the
funding check passed, and the produced state is the initialized record with
the entry fee moved from the creator into the fresh vault. -/
theorem create_ok_inv {now : Int} {creator : Pubkey} {fee : Nat}
    {bal : Pubkey → Nat} {s : St}
    (h : create_challenge now creator fee bal = .ok s) :
    1 ≤ fee ∧ fee ≤ 1000 ∧ fee ≤ bal creator ∧
    s = { challenge :=
            { creator := creator
              challenger := none
              entry_fee := fee
              status := .Open
              dispute_timer := now + 900
              winner := none
              created_at := now
              last_updated := now
              processing := false }
          vault := fee
          bal := fun p => if p = creator then bal creator - fee else bal p } := by
  unfold create_challenge at h
  split at h
  · simp at h
  split at h
  · simp at h
  split at h
  · simp at h
  · simp only [Except.ok.injEq] at h
    subst h
    simp_all
    omega

/-- Evaluation of create_challenge when its checks pass. -/
theorem create_ok_of {now : Int} {creator : Pubkey} {fee : Nat}
    {bal : Pubkey → Nat} (h1 : 1 ≤ fee) (h2 : fee ≤ 1000)
    (h3 : fee ≤ bal creator) :
    create_challenge now creator fee bal =
      .ok { challenge :=
              { creator := creator
                challenger := none
                entry_fee := fee
                status := .Open
                dispute_timer := now + 900
                winner := none
                created_at := now
                last_updated := now
                processing := false }
            vault := fee
            bal := fun p => if p = creator then bal creator - fee else bal p } := by
  unfold create_challenge
  rw [if_neg (by omega), if_neg (by omega), if_neg (by omega)]

/-- Inversion of a successful accept_challenge: the five checks passed and the
post-state is the record update plus the challenger's deposit. -/
theorem accept_ok_inv {now : Int} {aa : Bool} {ch : Pubkey} {s s' : St}
    (h : accept_challenge now aa ch s = .ok s') :
    aa = true ∧ s.challenge.status = .Open ∧ s.challenge.creator ≠ ch ∧
    s.challenge.entry_fee ≤ s.bal ch ∧ now < s.challenge.dispute_timer ∧
    s' = { challenge :=
             { s.challenge with
                 challenger := some ch
                 status := .InProgress
                 last_updated := now }
           vault := s.vault + s.challenge.entry_fee
           bal := fun p => if p = ch then s.bal p - s.challenge.entry_fee else s.bal p } := by
  unfold accept_challenge vaultDeposit at h
  split at h
  · simp at h
  split at h
  · simp at h
  split at h
  · simp at h
  split at h
  · simp at h
  split at h
  · simp at h
  simp only [] at h
  split at h
  · simp_all
  · simp only [StepResult.ok.injEq] at h
    subst h
    simp_all

/-- resolve_challenge never succeeds: its payout CPI is signed for the escrow
token account's address instead of the authority escrow_wallet's, so the token
program rejects the transfer on every input. -/
theorem resolve_isOk_false (now : Int) (aa : Bool) (w ck mk : Pubkey) (s : St) :
    (resolve_challenge now aa w ck mk s).isOk = false := by
  unfold resolve_challenge
  split
  · rfl
  try simp only []
  split
  · rfl
  split
  · rfl
  split
  · rfl
  · rfl
  · split
    · rfl
    try simp only []
    rw [vaultPayout_not_signed _ _ _ (escrowTokenAccountAddr_ne ck mk)]
    rfl

/-- cancel_challenge never succeeds: its refund CPI carries no signer seeds
while the authority is an off-curve PDA, so the token program rejects the
unsigned transfer on every input. -/
theorem cancel_isOk_false (now : Int) (aa : Bool) (caller : Pubkey) (s : St) :
    (cancel_challenge now aa caller s).isOk = false := by
  unfold cancel_challenge
  split
  · rfl
  try simp only []
  split
  · rfl
  split
  · rfl
  split
  · rfl
  split
  · rfl
  try simp only []
  rw [vaultPayout_not_signed _ _ _ (by simp)]
  rfl

/-- claim_refund never succeeds: its refund CPI carries no signer seeds while
the authority is an off-curve PDA, so the token program rejects the unsigned
transfer on every input. -/
theorem refund_isOk_false (now : Int) (caller : Pubkey) (s : St) :
    (claim_refund now caller s).isOk = false := by
  unfold claim_refund
  split
  · rfl
  try simp only []
  split
  · rfl
  split
  · rfl
  split
  · rfl
  split
  · rfl
  try simp only []
  rw [vaultPayout_not_signed _ _ _ (by simp)]
  rfl

/-- Under its record preconditions claim_refund passes every program check,
admin flag included, and reaches the refund transfer, failing only for the
missing escrow-authority signature. -/
theorem refund_reaches_transfer {now : Int} {caller : Pubkey} {s : St}
    (hp : s.challenge.processing = false) (hc : caller = s.challenge.creator)
    (hst : s.challenge.status = .Open) (ht : s.challenge.dispute_timer ≤ now)
    (hch : s.challenge.challenger = none) :
    (claim_refund now caller s).errOf = some .tokenMissingSignature := by
  have ht2 : ¬ now < s.challenge.dispute_timer := not_lt.mpr ht
  simp [claim_refund, vaultPayout, hp, hc, hst, hch, ht2, StepResult.errOf,
    escrowWalletAddr]

/-- Inversion of a successful dispute_challenge: the four checks passed and
only the status and timestamp change.  No token movement. -/
theorem dispute_ok_inv {now : Int} {aa : Bool} {d : Pubkey} {s s' : St}
    (h : dispute_challenge now aa d s = .ok s') :
    aa = true ∧ s.challenge.status = .InProgress ∧
    s.challenge.dispute_timer ≤ now ∧
    (d = s.challenge.creator ∨ s.challenge.challenger = some d) ∧
    s' = { s with challenge :=
             { s.challenge with status := .Disputed, last_updated := now } } := by
  unfold dispute_challenge at h
  split at h
  · simp at h
  split at h
  · simp at h
  split at h
  · simp at h
  split at h
  · simp at h
  · simp at h
  · rename_i hwin
    simp only [StepResult.ok.injEq] at h
    subst h
    have hdisj := eqCoC_true_inv hwin
    simp_all

/-- The creator-or-challenger test evaluates to true on either participant. -/
theorem eqCoC_true_of {x c : Pubkey} {cho : Option Pubkey}
    (h : x = c ∨ cho = some x) : eqCreatorOrChallenger x c cho = some true := by
  unfold eqCreatorOrChallenger
  rcases h with h | h
  · simp [h]
  · split
    · rfl
    · simp [h]

/-- The creator-or-challenger test panics only when no challenger is present. -/
theorem eqCoC_none_inv {x c : Pubkey} {cho : Option Pubkey}
    (h : eqCreatorOrChallenger x c cho = none) : cho = none := by
  unfold eqCreatorOrChallenger at h
  split at h
  · simp at h
  · cases hcho : cho with
    | none => rfl
    | some ch => rw [hcho] at h; simp at h

/-- Commit keeps the pre-state whenever the instruction did not succeed. -/
theorem commit_eq_self {s : St} {r : StepResult St} (h : r.isOk = false) :
    commit s r = s := by
  cases r <;> simp_all [commit, StepResult.isOk]

/-- accept_challenge never panics. -/
theorem accept_no_panic (now : Int) (aa : Bool) (ch : Pubkey) (s : St) :
    (accept_challenge now aa ch s).isPanic = false := by
  unfold accept_challenge
  split
  · rfl
  split
  · rfl
  split
  · rfl
  split
  · rfl
  split
  · rfl
  try simp only []
  split
  · rfl
  · rfl

/-- cancel_challenge never panics. -/
theorem cancel_no_panic (now : Int) (aa : Bool) (caller : Pubkey) (s : St) :
    (cancel_challenge now aa caller s).isPanic = false := by
  unfold cancel_challenge
  split
  · rfl
  try simp only []
  split
  · rfl
  split
  · rfl
  split
  · rfl
  split
  · rfl
  try simp only []
  split
  · rfl
  · rfl

/-- claim_refund never panics. -/
theorem refund_no_panic (now : Int) (caller : Pubkey) (s : St) :
    (claim_refund now caller s).isPanic = false := by
  unfold claim_refund
  split
  · rfl
  try simp only []
  split
  · rfl
  split
  · rfl
  split
  · rfl
  split
  · rfl
  try simp only []
  split
  · rfl
  · rfl

/-- resolve_challenge cannot panic when a challenger is present whenever the
status is InProgress. -/
theorem resolve_no_panic {now : Int} {aa : Bool} {w ck mk : Pubkey} {s : St}
    (hch : s.challenge.status = .InProgress → s.challenge.challenger.isSome = true) :
    (resolve_challenge now aa w ck mk s).isPanic = false := by
  unfold resolve_challenge
  split
  · rfl
  try simp only []
  split
  · rfl
  split
  · rfl
  split
  · rename_i heq
    exfalso
    have hcho := eqCoC_none_inv heq
    simp_all
  · rfl
  · split
    · rfl
    try simp only []
    split
    · rfl
    · rfl

/-- dispute_challenge cannot panic when a challenger is present whenever the
status is InProgress. -/
theorem dispute_no_panic {now : Int} {aa : Bool} {d : Pubkey} {s : St}
    (hch : s.challenge.status = .InProgress → s.challenge.challenger.isSome = true) :
    (dispute_challenge now aa d s).isPanic = false := by
  unfold dispute_challenge
  split
  · rfl
  split
  · rfl
  split
  · rfl
  split
  · rename_i heq
    exfalso
    have hcho := eqCoC_none_inv heq
    simp_all
  · rfl
  · rfl

/-- accept_challenge aborts whenever the challenge is not Open. -/
theorem accept_err_of_notOpen {now : Int} {aa : Bool} {ch : Pubkey} {s : St}
    (h : s.challenge.status ≠ .Open) :
    (accept_challenge now aa ch s).isErr = true := by
  unfold accept_challenge
  split
  · rfl
  · rfl

/-- resolve_challenge aborts whenever the challenge is not InProgress. -/
theorem resolve_err_of_notInProgress {now : Int} {aa : Bool} {w ck mk : Pubkey}
    {s : St} (h : s.challenge.status ≠ .InProgress) :
    (resolve_challenge now aa w ck mk s).isErr = true := by
  unfold resolve_challenge
  split
  · rfl
  try simp only []
  split
  · rfl
  · rfl

/-- cancel_challenge aborts whenever the challenge is not Open. -/
theorem cancel_err_of_notOpen {now : Int} {aa : Bool} {caller : Pubkey} {s : St}
    (h : s.challenge.status ≠ .Open) :
    (cancel_challenge now aa caller s).isErr = true := by
  unfold cancel_challenge
  split
  · rfl
  try simp only []
  split
  · rfl
  · rfl

/-- claim_refund aborts whenever the challenge is not Open. -/
theorem refund_err_of_notOpen {now : Int} {caller : Pubkey} {s : St}
    (h : s.challenge.status ≠ .Open) :
    (claim_refund now caller s).isErr = true := by
  unfold claim_refund
  split
  · rfl
  try simp only []
  split
  · rfl
  · rfl

/-- dispute_challenge aborts whenever the challenge is not InProgress. -/
theorem dispute_err_of_notInProgress {now : Int} {aa : Bool} {d : Pubkey} {s : St}
    (h : s.challenge.status ≠ .InProgress) :
    (dispute_challenge now aa d s).isErr = true := by
  unfold dispute_challenge
  split
  · rfl
  · rfl

/-- accept_challenge with an inactive admin registry aborts with AdminInactive. -/
theorem accept_admin_gate {now : Int} {ch : Pubkey} {s : St} :
    (accept_challenge now false ch s).errOf = some (.cerr .AdminInactive) := by
  simp [accept_challenge, StepResult.errOf]

/-- resolve_challenge with a clear guard and an inactive admin registry aborts
with AdminInactive. -/
theorem resolve_admin_gate {now : Int} {w ck mk : Pubkey} {s : St}
    (hp : s.challenge.processing = false) :
    (resolve_challenge now false w ck mk s).errOf = some (.cerr .AdminInactive) := by
  simp [resolve_challenge, hp, StepResult.errOf]

/-- cancel_challenge with a clear guard and an inactive admin registry aborts
with AdminInactive. -/
theorem cancel_admin_gate {now : Int} {caller : Pubkey} {s : St}
    (hp : s.challenge.processing = false) :
    (cancel_challenge now false caller s).errOf = some (.cerr .AdminInactive) := by
  simp [cancel_challenge, hp, StepResult.errOf]

/-- dispute_challenge with an inactive admin registry aborts with AdminInactive. -/
theorem dispute_admin_gate {now : Int} {d : Pubkey} {s : St} :
    (dispute_challenge now false d s).errOf = some (.cerr .AdminInactive) := by
  simp [dispute_challenge, StepResult.errOf]

/-- Inversion of a successful revoke_admin: the caller was the active admin
and the registry is now inactive. -/
theorem revoke_admin_ok_inv {now : Int} {caller : Pubkey} {a a' : AdminState}
    (h : revoke_admin now caller a = .ok a') :
    a.admin = caller ∧ a.is_active = true ∧
    a' = { a with is_active := false, last_updated := now } := by
  unfold revoke_admin at h
  split at h
  · simp at h
  split at h
  · simp at h
  · simp_all

/-- Every reachable state satisfies the escrow correspondence, has a recorded
challenger whenever InProgress or Disputed, and has a clear reentrancy flag. -/
theorem goodSt_of_reachable {s : St} (h : Reachable s) : goodSt s := by
  induction h with
  | created now creator fee bal s hc =>
    obtain ⟨h1, h2, h3, hs⟩ := create_ok_inv hc
    subst hs
    simp [goodSt, vaultInv]
  | step t now aa actor w ck mk s s' hr hok ih =>
    obtain ⟨hv, hch, hp⟩ := ih
    cases t with
    | acceptT =>
      obtain ⟨ha, hst, hself, hfund, ht, hs'⟩ := accept_ok_inv hok
      subst hs'
      have hv2 : s.vault = s.challenge.entry_fee := by
        simpa [vaultInv, hst] using hv
      constructor
      · simp [vaultInv, hv2]
        omega
      · simp [hp]
    | resolveT =>
      exfalso
      have hfalse := resolve_isOk_false now aa w ck mk s
      simp only [runStep] at hok
      rw [hok] at hfalse
      simp [StepResult.isOk] at hfalse
    | cancelT =>
      exfalso
      have hfalse := cancel_isOk_false now aa actor s
      simp only [runStep] at hok
      rw [hok] at hfalse
      simp [StepResult.isOk] at hfalse
    | refundT =>
      exfalso
      have hfalse := refund_isOk_false now actor s
      simp only [runStep] at hok
      rw [hok] at hfalse
      simp [StepResult.isOk] at hfalse
    | disputeT =>
      obtain ⟨ha, hst, ht, hd, hs'⟩ := dispute_ok_inv hok
      subst hs'
      have hv2 : s.vault = s.challenge.entry_fee * 2 := by
        simpa [vaultInv, hst] using hv
      constructor
      · simp [vaultInv, hv2]
      · simp [hp, hch, hst]

/-- Uniform balance map used by the concrete scenario states. -/
def balW : Pubkey → Nat := fun _ => 1000

/-- The state produced by create_challenge at time 0 by creator 1 with fee 5. -/
def sOpen : St :=
  { challenge :=
      { creator := 1
        challenger := none
        entry_fee := 5
        status := .Open
        dispute_timer := 900
        winner := none
        created_at := 0
        last_updated := 0
        processing := false }
    vault := 5
    bal := fun p => if p = 1 then balW 1 - 5 else balW p }

/-- Creation scenario: creator 1 stakes 5 at time 0. -/
theorem create_sOpen : create_challenge 0 1 5 balW = .ok sOpen := rfl

/-- The state after challenger 2 accepts sOpen at time 100. -/
def sIP : St :=
  { challenge :=
      { creator := 1
        challenger := some 2
        entry_fee := 5
        status := .InProgress
        dispute_timer := 900
        winner := none
        created_at := 0
        last_updated := 100
        processing := false }
    vault := 10
    bal := fun p => if p = 2 then sOpen.bal p - 5 else sOpen.bal p }

/-- Acceptance scenario: challenger 2 accepts at time 100. -/
theorem accept_sOpen : accept_challenge 100 true 2 sOpen = .ok sIP := rfl

/-- A Completed challenge state, used to exercise the terminal-state claims. -/
def sDone : St :=
  { challenge :=
      { creator := 1
        challenger := some 2
        entry_fee := 5
        status := .Completed
        dispute_timer := 900
        winner := some 2
        created_at := 0
        last_updated := 800
        processing := false }
    vault := 0
    bal := balW }

/-- An admin registry handed to the revoke scenario. -/
def adminA : AdminState :=
  { admin := 3, is_active := true, created_at := 0, last_updated := 0 }

/-- The registry after admin 3 revokes itself at time 50. -/
def adminR : AdminState :=
  { admin := 3, is_active := false, created_at := 0, last_updated := 50 }

/-- Claim C1: for every challenge, the escrow vault balance is an invariant of
the step relation: it equals entry_fee while the status is Open, entry_fee * 2
while InProgress or Disputed, and 0 once Completed or Cancelled; creation
establishes the correspondence and accept, resolve, cancel, refund and dispute
each preserve it, so it holds in every reachable state. -/
theorem escrow_vault_invariant (s : St) (h : Reachable s) : vaultInv s :=
  (goodSt_of_reachable h).1

/-- Concrete instance of escrow_vault_invariant on the state created by
creator 1 with fee 5. -/
theorem escrow_vault_invariant_witness : vaultInv sOpen :=
  escrow_vault_invariant sOpen (Reachable.created 0 1 5 balW sOpen create_sOpen)

/-- Claim C2 (code bug): resolve_challenge can never return Ok on any input:
its payout CPI is signed for the escrow token account's address rather than
for the authority escrow_wallet, so the token program rejects the transfer.
At the concrete input sIP, where every success condition of the claim holds
(admin active, status InProgress, the winner argument names the challenger,
the clock before the dispute timer), resolve aborts with the token program's
missing-signature error instead of paying the winner. -/
theorem resolve_payout_unsignable :
    (∀ now aa w ck mk s, (resolve_challenge now aa w ck mk s).isOk = false) ∧
    (sIP.challenge.status = .InProgress ∧ sIP.challenge.challenger = some 2 ∧
     ((200 : Int) < sIP.challenge.dispute_timer) ∧
     (resolve_challenge 200 true 2 11 12 sIP).errOf
        = some .tokenMissingSignature) :=
  ⟨fun now aa w ck mk s => resolve_isOk_false now aa w ck mk s,
   rfl, rfl, by decide, rfl⟩

/-- Counterexample to claim C3 as stated: with the admin registry inactive,
accept_challenge invoked by the creator fails with AdminInactive, not with the
SelfChallenge error the claim prescribes. -/
theorem accept_self_cex :
    (accept_challenge 100 false sOpen.challenge.creator sOpen).errOf
        = some (.cerr .AdminInactive) ∧
    (accept_challenge 100 false sOpen.challenge.creator sOpen).errOf
        ≠ some (.cerr .SelfChallenge) :=
  ⟨rfl, by decide⟩

/-- Claim C3 (amended): accept_challenge invoked by the challenge's creator
never succeeds, whatever the admin flag, status, time or balances; the error
is SelfChallenge exactly when the two earlier checks pass, namely when the
admin registry is active and the status is Open. -/
theorem accept_self_challenge_spec (now : Int) (aa : Bool) (s : St) :
    (accept_challenge now aa s.challenge.creator s).isOk = false ∧
    (aa = true → s.challenge.status = .Open →
      accept_challenge now aa s.challenge.creator s
        = .err (.cerr .SelfChallenge) s) := by
  constructor
  · unfold accept_challenge
    split
    · rfl
    split
    · rfl
    split
    · rfl
    · simp_all
  · intro ha hst
    unfold accept_challenge
    rw [ha]
    simp [hst]

/-- Concrete instance of accept_self_challenge_spec on sOpen with an active
admin registry, with both inner hypotheses discharged. -/
theorem accept_self_challenge_spec_witness :
    (accept_challenge 100 true sOpen.challenge.creator sOpen).isOk = false ∧
    accept_challenge 100 true sOpen.challenge.creator sOpen
      = .err (.cerr .SelfChallenge) sOpen :=
  ⟨(accept_self_challenge_spec 100 true sOpen).1,
   (accept_self_challenge_spec 100 true sOpen).2 rfl rfl⟩

/-- Claim C4: once a challenge is Completed or Cancelled, every one of the
five transitions accept, resolve, cancel, claim_refund and dispute fails, and
the committed challenge record and vault balance are exactly the pre-state,
for every caller, time and input. -/
theorem terminal_states_final (t : StepTag) (now : Int) (aa : Bool)
    (actor w ck mk : Pubkey) (s : St)
    (h : s.challenge.status = .Completed ∨ s.challenge.status = .Cancelled) :
    (runStep t now aa actor w ck mk s).isErr = true ∧
    commit s (runStep t now aa actor w ck mk s) = s := by
  have hno : s.challenge.status ≠ .Open ∧ s.challenge.status ≠ .InProgress := by
    rcases h with h | h <;> simp [h]
  have herr : (runStep t now aa actor w ck mk s).isErr = true := by
    cases t with
    | acceptT => exact accept_err_of_notOpen hno.1
    | resolveT => exact @resolve_err_of_notInProgress now aa w ck mk s hno.2
    | cancelT => exact cancel_err_of_notOpen hno.1
    | refundT => exact refund_err_of_notOpen hno.1
    | disputeT => exact dispute_err_of_notInProgress hno.2
  refine ⟨herr, commit_eq_self ?_⟩
  cases hres : runStep t now aa actor w ck mk s <;>
    simp_all [StepResult.isErr, StepResult.isOk]

/-- Concrete instance of terminal_states_final: re-resolving the already
Completed challenge sDone fails and commits no change. -/
theorem terminal_states_final_witness :
    (runStep .resolveT 1000 true 1 1 11 12 sDone).isErr = true ∧
    commit sDone (runStep .resolveT 1000 true 1 1 11 12 sDone) = sDone :=
  terminal_states_final .resolveT 1000 true 1 1 11 12 sDone (Or.inl rfl)

/-- Counterexample to claim C5 as stated: entry_fee = 1 lies inside [1, 1000]
yet create_challenge fails when the creator's token account is empty, because
the transfer of the stake into the vault fails in the token program. -/
theorem create_underfunded_cex :
    ((1 : Nat) ≤ 1 ∧ (1 : Nat) ≤ 1000) ∧
    create_challenge 0 7 1 (fun _ => 0) = .error .tokenInsufficientFunds :=
  ⟨by decide, rfl⟩

/-- Claim C5 (amended): for every entry_fee in [1, 1000] whose creator holds
at least entry_fee tokens, create_challenge succeeds, the vault balance
becomes exactly entry_fee, and the record starts with status Open, challenger
None and dispute_timer = now + 900; entry_fee = 0 fails with EntryFeeTooLow
and entry_fee = 1001 fails with EntryFeeTooHigh, in both cases before any
transfer is attempted. -/
theorem create_challenge_spec (now : Int) (creator : Pubkey) (fee : Nat)
    (bal : Pubkey → Nat) :
    (1 ≤ fee → fee ≤ 1000 → fee ≤ bal creator →
      ∃ s, create_challenge now creator fee bal = .ok s ∧
        s.vault = fee ∧ s.challenge.status = .Open ∧
        s.challenge.challenger = none ∧
        s.challenge.dispute_timer = now + 900 ∧
        s.challenge.entry_fee = fee) ∧
    create_challenge now creator 0 bal = .error (.cerr .EntryFeeTooLow) ∧
    create_challenge now creator 1001 bal = .error (.cerr .EntryFeeTooHigh) := by
  refine ⟨fun h1 h2 h3 => ⟨_, create_ok_of h1 h2 h3, rfl, rfl, rfl, rfl, rfl⟩, rfl, rfl⟩

/-- Concrete instance of create_challenge_spec for creator 1, fee 5, funded
balances, with the range and funding hypotheses discharged. -/
theorem create_challenge_spec_witness :
    (∃ s, create_challenge 0 1 5 balW = .ok s ∧
      s.vault = 5 ∧ s.challenge.status = .Open ∧
      s.challenge.challenger = none ∧
      s.challenge.dispute_timer = 0 + 900 ∧
      s.challenge.entry_fee = 5) ∧
    create_challenge 0 1 0 balW = .error (.cerr .EntryFeeTooLow) ∧
    create_challenge 0 1 1001 balW = .error (.cerr .EntryFeeTooHigh) :=
  ⟨(create_challenge_spec 0 1 5 balW).1 (by decide) (by decide) (by decide),
   (create_challenge_spec 0 1 5 balW).2.1,
   (create_challenge_spec 0 1 5 balW).2.2⟩

/-- Claim C6 (code bug): claim_refund can never return Ok on any input: its
refund CPI is built with no signer seeds while the source authority is the
off-curve PDA escrow_wallet, so the token program rejects the unsigned
transfer.  At the concrete input sOpen at time 1000, where every success
condition of the claim holds (caller is the creator, status Open, no
challenger, the timer has passed), claim_refund aborts with the token
program's missing-signature error instead of refunding the creator. -/
theorem claim_refund_payout_unsignable :
    (∀ now caller s, (claim_refund now caller s).isOk = false) ∧
    ((1 : Pubkey) = sOpen.challenge.creator ∧ sOpen.challenge.status = .Open ∧
     sOpen.challenge.challenger = none ∧
     sOpen.challenge.dispute_timer ≤ (1000 : Int) ∧
     (claim_refund 1000 1 sOpen).errOf = some .tokenMissingSignature) :=
  ⟨fun now caller s => refund_isOk_false now caller s,
   rfl, rfl, rfl, by decide, rfl⟩

/-- Claim C7: create_challenge fixes dispute_timer at created_at + 900, and no
later transition, successful or not, changes the committed dispute_timer. -/
theorem dispute_timer_fixed :
    (∀ now creator fee bal s, create_challenge now creator fee bal = .ok s →
      s.challenge.dispute_timer = s.challenge.created_at + 900) ∧
    (∀ t now aa actor w ck mk s,
      (commit s (runStep t now aa actor w ck mk s)).challenge.dispute_timer
        = s.challenge.dispute_timer) := by
  constructor
  · intro now creator fee bal s hc
    obtain ⟨_, _, _, hs⟩ := create_ok_inv hc
    subst hs
    rfl
  · intro t now aa actor w ck mk s
    cases hres : runStep t now aa actor w ck mk s with
    | ok s' =>
      show s'.challenge.dispute_timer = s.challenge.dispute_timer
      cases t with
      | acceptT =>
        obtain ⟨_, _, _, _, _, hs'⟩ := accept_ok_inv hres
        subst hs'
        rfl
      | resolveT =>
        exfalso
        have hfalse := resolve_isOk_false now aa w ck mk s
        simp only [runStep] at hres
        rw [hres] at hfalse
        simp [StepResult.isOk] at hfalse
      | cancelT =>
        exfalso
        have hfalse := cancel_isOk_false now aa actor s
        simp only [runStep] at hres
        rw [hres] at hfalse
        simp [StepResult.isOk] at hfalse
      | refundT =>
        exfalso
        have hfalse := refund_isOk_false now actor s
        simp only [runStep] at hres
        rw [hres] at hfalse
        simp [StepResult.isOk] at hfalse
      | disputeT =>
        obtain ⟨_, _, _, _, hs'⟩ := dispute_ok_inv hres
        subst hs'
        rfl
    | err e ws => rfl
    | panic ws => rfl

/-- Concrete instance of dispute_timer_fixed: creation fixes the timer of
sOpen at 0 + 900 and the committed acceptance step keeps it. -/
theorem dispute_timer_fixed_witness :
    sOpen.challenge.dispute_timer = sOpen.challenge.created_at + 900 ∧
    (commit sOpen (runStep .acceptT 100 true 2 0 11 12 sOpen)).challenge.dispute_timer
      = sOpen.challenge.dispute_timer :=
  ⟨dispute_timer_fixed.1 0 1 5 balW sOpen create_sOpen,
   dispute_timer_fixed.2 .acceptT 100 true 2 0 11 12 sOpen⟩

/-- Claim C8: whenever a transition returns an error, the committed post-state
is exactly the pre-state: no challenge field is mutated, the vault balance and
every token balance are unchanged, and the writes made before the failing
check (such as the processing flag set by resolve, cancel and claim_refund)
are discarded by the runtime's all-or-nothing transaction semantics. -/
theorem error_atomicity (t : StepTag) (now : Int) (aa : Bool)
    (actor w ck mk : Pubkey) (s : St) (e : TxError) (ws : St)
    (h : runStep t now aa actor w ck mk s = .err e ws) :
    commit s (runStep t now aa actor w ck mk s) = s ∧
    (commit s (runStep t now aa actor w ck mk s)).challenge = s.challenge ∧
    (commit s (runStep t now aa actor w ck mk s)).vault = s.vault ∧
    (commit s (runStep t now aa actor w ck mk s)).bal = s.bal := by
  rw [h]
  exact ⟨rfl, rfl, rfl, rfl⟩

/-- Concrete instance of error_atomicity: an acceptance attempted under an
inactive admin registry aborts and commits nothing. -/
theorem error_atomicity_witness :
    commit sOpen (runStep .acceptT 100 false 2 0 11 12 sOpen) = sOpen ∧
    (commit sOpen (runStep .acceptT 100 false 2 0 11 12 sOpen)).challenge
      = sOpen.challenge ∧
    (commit sOpen (runStep .acceptT 100 false 2 0 11 12 sOpen)).vault
      = sOpen.vault ∧
    (commit sOpen (runStep .acceptT 100 false 2 0 11 12 sOpen)).bal
      = sOpen.bal :=
  error_atomicity .acceptT 100 false 2 0 11 12 sOpen (.cerr .AdminInactive)
    sOpen rfl

/-- Claim C9: in every reachable state a challenge that is InProgress or
Disputed has a recorded challenger, so the challenger unwraps inside
resolve_challenge and dispute_challenge, reached only after the status check,
never panic: no transition from a reachable state is a panic. -/
theorem challenger_present_no_panic (s : St) (h : Reachable s) :
    ((s.challenge.status = .InProgress ∨ s.challenge.status = .Disputed) →
      s.challenge.challenger.isSome = true) ∧
    (∀ t now aa actor w ck mk, (runStep t now aa actor w ck mk s).isPanic = false) := by
  obtain ⟨hv, hch, hp⟩ := goodSt_of_reachable h
  refine ⟨hch, ?_⟩
  intro t now aa actor w ck mk
  have hch2 : s.challenge.status = .InProgress → s.challenge.challenger.isSome = true :=
    fun hst => hch (Or.inl hst)
  cases t with
  | acceptT => exact accept_no_panic now aa actor s
  | resolveT => exact @resolve_no_panic now aa w ck mk s hch2
  | cancelT => exact cancel_no_panic now aa actor s
  | refundT => exact refund_no_panic now actor s
  | disputeT => exact dispute_no_panic hch2

/-- Concrete instance of challenger_present_no_panic on the reachable
InProgress state sIP. -/
theorem challenger_present_no_panic_witness :
    ((sIP.challenge.status = .InProgress ∨ sIP.challenge.status = .Disputed) →
      sIP.challenge.challenger.isSome = true) ∧
    (∀ t now aa actor w ck mk,
      (runStep t now aa actor w ck mk sIP).isPanic = false) :=
  challenger_present_no_panic sIP
    (Reachable.step .acceptT 100 true 2 0 11 12 sOpen sIP
      (Reachable.created 0 1 5 balW sOpen create_sOpen) accept_sOpen)

/-- Counterexample to claim C10 as stated: admin 3 revokes the registry
adminA, the creator calls claim_refund on the expired, unaccepted, Open
challenge sOpen with every listed precondition holding, yet claim_refund does
not succeed: its unsigned refund CPI is rejected by the token program. -/
theorem refund_revoked_cex :
    revoke_admin 50 3 adminA = .ok adminR ∧
    (1 : Pubkey) = sOpen.challenge.creator ∧ sOpen.challenge.status = .Open ∧
    sOpen.challenge.dispute_timer ≤ (1000 : Int) ∧
    sOpen.challenge.challenger = none ∧
    (claim_refund 1000 1 sOpen).isOk = false :=
  ⟨rfl, rfl, rfl, by decide, rfl, rfl⟩

/-- Claim C10 (amended): claim_refund checks no admin flag: after revoke_admin
has deactivated the registry, a creator whose Open challenge is expired and
unaccepted passes every program check — claim_refund proceeds all the way to
the refund transfer and fails only with the token program's missing-signature
error, never with AdminInactive — whereas accept_challenge, resolve_challenge,
cancel_challenge and dispute_challenge each abort with AdminInactive under the
revoked registry. -/
theorem refund_skips_admin_check (now rnow : Int) (caller rcaller : Pubkey)
    (s : St) (a a' : AdminState)
    (hrev : revoke_admin rnow rcaller a = .ok a')
    (hc : caller = s.challenge.creator) (hst : s.challenge.status = .Open)
    (ht : s.challenge.dispute_timer ≤ now)
    (hch : s.challenge.challenger = none)
    (hp : s.challenge.processing = false) :
    (claim_refund now caller s).errOf = some .tokenMissingSignature ∧
    (claim_refund now caller s).errOf ≠ some (.cerr .AdminInactive) ∧
    (∀ x, (accept_challenge now a'.is_active x s).errOf
        = some (.cerr .AdminInactive)) ∧
    (∀ x ck mk, (resolve_challenge now a'.is_active x ck mk s).errOf
        = some (.cerr .AdminInactive)) ∧
    (∀ x, (cancel_challenge now a'.is_active x s).errOf
        = some (.cerr .AdminInactive)) ∧
    (∀ x, (dispute_challenge now a'.is_active x s).errOf
        = some (.cerr .AdminInactive)) := by
  obtain ⟨_, _, ha'⟩ := revoke_admin_ok_inv hrev
  have hinact : a'.is_active = false := by rw [ha']
  have hreach := refund_reaches_transfer hp hc hst ht hch
  refine ⟨hreach, ?_, ?_, ?_, ?_, ?_⟩
  · rw [hreach]
    simp
  · intro x
    rw [hinact]
    exact accept_admin_gate
  · intro x ck mk
    rw [hinact]
    exact resolve_admin_gate hp
  · intro x
    rw [hinact]
    exact cancel_admin_gate hp
  · intro x
    rw [hinact]
    exact dispute_admin_gate

/-- Concrete instance of refund_skips_admin_check: admin 3 revokes the
registry adminA at time 50, after which claim_refund by creator 1 on the
expired sOpen at time 1000 passes every program check and dies only at the
unsigned transfer, while the other four transitions abort with AdminInactive. -/
theorem refund_skips_admin_check_witness :
    (claim_refund 1000 1 sOpen).errOf = some .tokenMissingSignature ∧
    (claim_refund 1000 1 sOpen).errOf ≠ some (.cerr .AdminInactive) ∧
    (∀ x, (accept_challenge 1000 adminR.is_active x sOpen).errOf
        = some (.cerr .AdminInactive)) ∧
    (∀ x ck mk, (resolve_challenge 1000 adminR.is_active x ck mk sOpen).errOf
        = some (.cerr .AdminInactive)) ∧
    (∀ x, (cancel_challenge 1000 adminR.is_active x sOpen).errOf
        = some (.cerr .AdminInactive)) ∧
    (∀ x, (dispute_challenge 1000 adminR.is_active x sOpen).errOf
        = some (.cerr .AdminInactive)) :=
  refund_skips_admin_check 1000 50 1 3 sOpen adminA adminR rfl rfl rfl
    (by decide) rfl rfl

end Usdfg
